import Mathlib

/-!
Verification of the CORS gas (middleware) of the `air` web framework,
shallowly embedded from `src/gases/cors.go` (`CORSConfig`,
`DefaultCORSConfig`, `CORSWithConfig`).

Headers are modelled as association lists of (name, value) pairs.
`Request.Header.Get` returns the first value for a name, or the empty
string when the header is absent; `Request.Header.Contains` reports
presence.  On the response side `Header.Add` appends a (possibly
repeating) entry and `Header.Set` overwrites every entry of that name
with a single one.  A handler invocation is summarised by the
response-header mutations the gas performed (the response starts with no
headers of its own), whether `next(c)` was invoked, and the status code
the gas itself assigned.
-/

namespace AirCORS

/-- Modelled from the spec: the header-name string constants of the `air`
package (`air.HeaderOrigin` and friends), whose defining file is not part
of the excerpt; the spec names the concrete header strings in its testable
properties. -/
def HeaderOrigin : String := "Origin"

def HeaderVary : String := "Vary"

def HeaderAccessControlAllowOrigin : String := "Access-Control-Allow-Origin"

def HeaderAccessControlAllowCredentials : String := "Access-Control-Allow-Credentials"

def HeaderAccessControlExposeHeaders : String := "Access-Control-Expose-Headers"

def HeaderAccessControlAllowMethods : String := "Access-Control-Allow-Methods"

def HeaderAccessControlAllowHeaders : String := "Access-Control-Allow-Headers"

def HeaderAccessControlRequestMethod : String := "Access-Control-Request-Method"

def HeaderAccessControlRequestHeaders : String := "Access-Control-Request-Headers"

def HeaderAccessControlMaxAge : String := "Access-Control-Max-Age"

/-- Modelled from the spec: the HTTP method constants `air.GET`,
`air.POST`, `air.PUT`, `air.DELETE` of the missing `air` package; the spec
lists the default verb set as GET, POST, PUT, DELETE. -/
def GET : String := "GET"

def POST : String := "POST"

def PUT : String := "PUT"

def DELETE : String := "DELETE"

def OPTIONS : String := "OPTIONS"

/-- A header multimap: ordered (name, value) pairs. -/
abbrev Headers : Type := List (String × String)

/-- `req.Header.Get(name)`: first value for the name, the empty string
when absent. -/
def Headers.get (hs : Headers) (name : String) : String :=
  match hs.find? (fun p => p.1 == name) with
  | some p => p.2
  | none => ""

/-- `req.Header.Contains(name)`: whether the header is present at all
(distinguishes absent from present-but-empty, Issue #517). -/
def Headers.contains (hs : Headers) (name : String) : Bool :=
  hs.any (fun p => p.1 == name)

/-- `res.Header.Add(name, value)`: append an entry (headers such as
`Vary` may repeat). -/
def Headers.add (hs : Headers) (name value : String) : Headers :=
  hs ++ [(name, value)]

/-- `res.Header.Set(name, value)`: overwrite the header with a single
entry. -/
def Headers.set (hs : Headers) (name value : String) : Headers :=
  hs.filter (fun p => p.1 ≠ name) ++ [(name, value)]

/-- Look up a response header value, `none` when absent. -/
def Headers.lookup (hs : Headers) (name : String) : Option String :=
  (hs.find? (fun p => p.1 == name)).map Prod.snd

/-- An incoming HTTP request: its method string and its header map. -/
structure Request where
  method : String
  header : Headers

/-- `CORSConfig` of `src/gases/cors.go`.  In Go the `Skipper` field may be
nil and lines 69-71 of `CORSWithConfig` replace a nil skipper by
`defaultSkipper`; a Lean function field is always present, so `skipper`
here is the effective (post-default) predicate. -/
structure CORSConfig where
  skipper : Request → Bool
  allowOrigins : List String
  allowMethods : List String
  allowHeaders : List String
  allowCredentials : Bool
  exposeHeaders : List String
  maxAge : Int

/-- Modelled from the spec: `defaultSkipper` of the `gases` package (its
defining file is not part of the excerpt); per the spec the default
configuration skips nothing. -/
def defaultSkipper : Request → Bool := fun _ => false

/-- `DefaultCORSConfig`: wildcard origins, default verb set, everything
else empty / zero / false. -/
def DefaultCORSConfig : CORSConfig :=
  { skipper := defaultSkipper
    allowOrigins := ["*"]
    allowMethods := [GET, POST, PUT, DELETE]
    allowHeaders := []
    allowCredentials := false
    exposeHeaders := []
    maxAge := 0 }

/-- The default-filling prologue of `CORSWithConfig` (lines 72-77):
an empty origin list or method list is replaced by the corresponding
`DefaultCORSConfig` field. -/
def fillDefaults (config : CORSConfig) : CORSConfig :=
  let config :=
    if config.allowOrigins.length = 0 then
      { config with allowOrigins := DefaultCORSConfig.allowOrigins }
    else config
  if config.allowMethods.length = 0 then
    { config with allowMethods := DefaultCORSConfig.allowMethods }
  else config

/-- `strings.Join(xs, ",")`. -/
def joinComma (xs : List String) : String :=
  String.intercalate "," xs

/-- The origin-matching loop of `CORSWithConfig` (lines 95-101):
`allowedOrigin` starts as the empty string; the first configured entry
equal to `"*"` or equal to the request origin is recorded and the loop
breaks. -/
def matchOrigin : List String → String → String
  | [], _ => ""
  | o :: rest, origin =>
      if o == "*" || o == origin then o else matchOrigin rest origin

/-- The outcome of one invocation of the gas: the response-header
mutations it performed, whether `next(c)` was invoked, and the status
code the gas itself assigned (`none` when it left the status alone). -/
structure HandlerResult where
  headers : Headers
  nextInvoked : Bool
  statusCode : Option Nat
  deriving Repr, DecidableEq

/-- The handler produced by `CORSWithConfig` (lines 84-142), translated
statement by statement.  Lines 104-115 are the simple-request path; the
function returns at line 115 (`return next(c)`), so the preflight block
at lines 117-141 is unreachable and does not occur here (see
`preflightBlock`). -/
def corsHandler (config : CORSConfig) (req : Request) : HandlerResult :=
  let config := fillDefaults config
  let exposeHeaders := joinComma config.exposeHeaders
  if config.skipper req then
    { headers := [], nextInvoked := true, statusCode := none }
  else
    let origin := req.header.get HeaderOrigin
    let originSet := req.header.contains HeaderOrigin
    let allowedOrigin := matchOrigin config.allowOrigins origin
    let res : Headers := Headers.add [] HeaderVary HeaderOrigin
    if !originSet || allowedOrigin == "" then
      { headers := res, nextInvoked := true, statusCode := none }
    else
      let res := res.set HeaderAccessControlAllowOrigin allowedOrigin
      let res :=
        if config.allowCredentials then
          res.set HeaderAccessControlAllowCredentials "true"
        else res
      let res :=
        if exposeHeaders != "" then
          res.set HeaderAccessControlExposeHeaders exposeHeaders
        else res
      { headers := res, nextInvoked := true, statusCode := none }

/-- The preflight block of `CORSWithConfig` (lines 117-141), translated
for reference.  In the source it sits after the unconditional
`return next(c)` of line 115, so `corsHandler` never executes it. -/
def preflightBlock (config : CORSConfig) (req : Request) : HandlerResult :=
  let config := fillDefaults config
  let allowMethods := joinComma config.allowMethods
  let allowHeaders := joinComma config.allowHeaders
  let maxAge := toString config.maxAge
  let origin := req.header.get HeaderOrigin
  let originSet := req.header.contains HeaderOrigin
  let allowedOrigin := matchOrigin config.allowOrigins origin
  let res : Headers := Headers.add [] HeaderVary HeaderOrigin
  let res := res.add HeaderVary HeaderAccessControlRequestMethod
  let res := res.add HeaderVary HeaderAccessControlRequestHeaders
  if !originSet || allowedOrigin == "" then
    { headers := res, nextInvoked := true, statusCode := none }
  else
    let res := res.set HeaderAccessControlAllowOrigin allowedOrigin
    let res := res.set HeaderAccessControlAllowMethods allowMethods
    let res :=
      if config.allowCredentials then
        res.set HeaderAccessControlAllowCredentials "true"
      else res
    let res :=
      if allowHeaders != "" then
        res.set HeaderAccessControlAllowHeaders allowHeaders
      else
        let h := req.header.get HeaderAccessControlRequestHeaders
        if h != "" then res.set HeaderAccessControlAllowHeaders h else res
    let res :=
      if config.maxAge > 0 then res.set HeaderAccessControlMaxAge maxAge
      else res
    { headers := res, nextInvoked := false, statusCode := some 204 }

/-- A skipper that never skips, used for concrete instances below. -/
def noSkip : Request → Bool := fun _ => false

/-- Concrete configuration: one literal allowed origin, no other options. -/
def exampleConfigA : CORSConfig :=
  { skipper := noSkip, allowOrigins := ["https://a.example"],
    allowMethods := [], allowHeaders := [], allowCredentials := false,
    exposeHeaders := [], maxAge := 0 }

/-- Concrete preflight request: method OPTIONS, matched origin, and an
Access-Control-Request-Headers header. -/
def preflightRequestA : Request :=
  { method := OPTIONS,
    header := [(HeaderOrigin, "https://a.example"),
               (HeaderAccessControlRequestHeaders, "X-Foo")] }

/-- Concrete configuration with every list empty. -/
def emptyConfig : CORSConfig :=
  { skipper := noSkip, allowOrigins := [], allowMethods := [],
    allowHeaders := [], allowCredentials := false, exposeHeaders := [],
    maxAge := 0 }

/-- Concrete configuration whose skipper always skips. -/
def skipAllConfig : CORSConfig :=
  { emptyConfig with skipper := fun _ => true }

/-- Concrete configuration with credentials allowed. -/
def credentialsConfig : CORSConfig :=
  { emptyConfig with
      allowOrigins := ["https://a.example"]
      allowCredentials := true }

/-- Concrete configuration with a wildcard origin and a max age of 600
seconds. -/
def maxAgeConfig : CORSConfig :=
  { emptyConfig with allowOrigins := ["*"], maxAge := 600 }

/-- Concrete configuration whose origin list holds the empty string ahead
of the wildcard. -/
def emptyEntryConfig : CORSConfig :=
  { emptyConfig with allowOrigins := ["", "*"] }

/-- Concrete configuration whose origin list holds a literal origin ahead
of the wildcard. -/
def wildcardSecondConfig : CORSConfig :=
  { emptyConfig with allowOrigins := ["https://x.example", "*"] }

/-- Concrete simple request with a matched origin. -/
def simpleRequestA : Request :=
  { method := GET, header := [(HeaderOrigin, "https://a.example")] }

/-- Concrete OPTIONS request with an unmatched origin. -/
def optionsRequestB : Request :=
  { method := OPTIONS, header := [(HeaderOrigin, "https://b.example")] }

/-- Concrete request whose Origin header is present with empty value. -/
def emptyOriginRequest : Request :=
  { method := GET, header := [(HeaderOrigin, "")] }

/-- Filling defaults leaves the skipper unchanged. -/
lemma fillDefaults_skipper (config : CORSConfig) :
    (fillDefaults config).skipper = config.skipper := by
  unfold fillDefaults
  dsimp only
  split <;> split <;> rfl

/-- Filling defaults leaves the credentials flag unchanged. -/
lemma fillDefaults_allowCredentials (config : CORSConfig) :
    (fillDefaults config).allowCredentials = config.allowCredentials := by
  unfold fillDefaults
  dsimp only
  split <;> split <;> rfl

/-- Filling defaults leaves the expose-headers list unchanged. -/
lemma fillDefaults_exposeHeaders (config : CORSConfig) :
    (fillDefaults config).exposeHeaders = config.exposeHeaders := by
  unfold fillDefaults
  dsimp only
  split <;> split <;> rfl

/-- Filling defaults keeps a nonempty origin list as it is. -/
lemma fillDefaults_allowOrigins_of_ne_nil (config : CORSConfig)
    (h : config.allowOrigins ≠ []) :
    (fillDefaults config).allowOrigins = config.allowOrigins := by
  unfold fillDefaults
  dsimp only
  have hlen : ¬ config.allowOrigins.length = 0 := by
    simpa [List.length_eq_zero] using h
  rw [if_neg hlen]
  split <;> rfl

/-- The origin list after default filling, as a conditional. -/
lemma fillDefaults_allowOrigins (config : CORSConfig) :
    (fillDefaults config).allowOrigins =
      if config.allowOrigins.length = 0 then ["*"]
      else config.allowOrigins := by
  unfold fillDefaults
  dsimp only
  split <;> split <;> simp_all [DefaultCORSConfig]

/-- The method list after default filling, as a conditional. -/
lemma fillDefaults_allowMethods (config : CORSConfig) :
    (fillDefaults config).allowMethods =
      if config.allowMethods.length = 0 then [GET, POST, PUT, DELETE]
      else config.allowMethods := by
  unfold fillDefaults
  dsimp only
  split <;> split <;> simp_all [DefaultCORSConfig]

/-- The matching loop returns the first entry equal to the wildcard or to
the request origin, and the empty string when none matches. -/
lemma matchOrigin_eq_find (l : List String) (origin : String) :
    matchOrigin l origin =
      ((l.find? fun o => o == "*" || o == origin).getD "") := by
  induction l with
  | nil => rfl
  | cons o rest ih =>
      by_cases hc : (o == "*" || o == origin) = true
      · simp [matchOrigin, List.find?, hc]
      · simp [matchOrigin, List.find?, hc, ih]

/-- A wildcard entry preceded by no empty-string entry matches the
present-but-empty origin. -/
lemma matchOrigin_wildcard (pre rest : List String) (h : "" ∉ pre) :
    matchOrigin (pre ++ "*" :: rest) "" = "*" := by
  induction pre with
  | nil => simp [matchOrigin]
  | cons o pre ih =>
      have ho : ¬ o = "" := fun hc => h (by simp [hc])
      have hpre : "" ∉ pre := fun hc => h (by simp [hc])
      by_cases hstar : o = "*"
      · simp [matchOrigin, hstar]
      · have hcond : (o == "*" || o == "") = false := by simp [hstar, ho]
        simp only [List.cons_append, matchOrigin, hcond, Bool.false_eq_true,
          if_false]
        exact ih hpre

/-- Skipped invocations mutate nothing and fall through to next. -/
lemma corsHandler_skip (config : CORSConfig) (req : Request)
    (h : config.skipper req = true) :
    corsHandler config req = ⟨[], true, none⟩ := by
  unfold corsHandler
  simp [fillDefaults_skipper, h]

/-- With the origin absent or unmatched the handler only adds Vary and
falls through to next. -/
lemma corsHandler_pass (config : CORSConfig) (req : Request)
    (h : config.skipper req = false)
    (h2 : req.header.contains HeaderOrigin = false ∨
      matchOrigin (fillDefaults config).allowOrigins
        (req.header.get HeaderOrigin) = "") :
    corsHandler config req = ⟨[(HeaderVary, HeaderOrigin)], true, none⟩ := by
  unfold corsHandler
  rcases h2 with h2 | h2 <;>
    simp [fillDefaults_skipper, h, h2, Headers.add]

/-- With a present and matched origin the handler emits the simple-request
headers and falls through to next. -/
lemma corsHandler_matched (config : CORSConfig) (req : Request)
    (h : config.skipper req = false)
    (ho : req.header.contains HeaderOrigin = true)
    (hm : matchOrigin (fillDefaults config).allowOrigins
      (req.header.get HeaderOrigin) ≠ "") :
    corsHandler config req =
      ⟨[(HeaderVary, HeaderOrigin),
        (HeaderAccessControlAllowOrigin,
          matchOrigin (fillDefaults config).allowOrigins
            (req.header.get HeaderOrigin))] ++
        (if config.allowCredentials then
          [(HeaderAccessControlAllowCredentials, "true")] else []) ++
        (if joinComma config.exposeHeaders != "" then
          [(HeaderAccessControlExposeHeaders, joinComma config.exposeHeaders)]
        else []),
       true, none⟩ := by
  unfold corsHandler
  simp only [fillDefaults_skipper, fillDefaults_allowCredentials,
    fillDefaults_exposeHeaders, h, ho, Bool.false_eq_true, if_false,
    Bool.not_true, Bool.false_or, beq_iff_eq, hm]
  split <;> split <;>
    simp_all [Headers.add, Headers.set, HeaderVary, HeaderOrigin,
      HeaderAccessControlAllowOrigin, HeaderAccessControlAllowCredentials,
      HeaderAccessControlExposeHeaders]

/-- Claim C1: the source never delivers the preflight response.  At the
exact input the claim describes (method OPTIONS, matched origin, empty
allowHeaders, an Access-Control-Request-Headers header), the handler
invokes next with no status and emits neither Allow-Methods nor
Allow-Headers, because the preflight block of lines 117-141 sits after
the unconditional return of line 115; that block, run on its own, would
produce exactly the claimed response. -/
theorem cors_preflight_never_handled :
    (corsHandler exampleConfigA preflightRequestA).nextInvoked = true ∧
    (corsHandler exampleConfigA preflightRequestA).statusCode = none ∧
    (corsHandler exampleConfigA preflightRequestA).headers.lookup
      HeaderAccessControlAllowMethods = none ∧
    (corsHandler exampleConfigA preflightRequestA).headers.lookup
      HeaderAccessControlAllowHeaders = none ∧
    (preflightBlock exampleConfigA preflightRequestA).statusCode = some 204 ∧
    (preflightBlock exampleConfigA preflightRequestA).headers.lookup
      HeaderAccessControlAllowHeaders = some "X-Foo" := by
  decide

/-- Claim C2: for every configuration and every request the handler
invokes the next handler and never assigns a status code, so the 204
no-content short-circuit is unreachable and only the simple-request path
runs. -/
theorem cors_always_invokes_next (config : CORSConfig) (req : Request) :
    (corsHandler config req).nextInvoked = true ∧
    (corsHandler config req).statusCode = none := by
  by_cases h : config.skipper req = true
  · rw [corsHandler_skip config req h]
    exact ⟨rfl, rfl⟩
  · have h0 : config.skipper req = false := by simpa using h
    by_cases ho : req.header.contains HeaderOrigin = true
    · by_cases hm : matchOrigin (fillDefaults config).allowOrigins
        (req.header.get HeaderOrigin) = ""
      · rw [corsHandler_pass config req h0 (Or.inr hm)]
        exact ⟨rfl, rfl⟩
      · rw [corsHandler_matched config req h0 ho hm]
        exact ⟨rfl, rfl⟩
    · rw [corsHandler_pass config req h0 (Or.inl (by simpa using ho))]
      exact ⟨rfl, rfl⟩

/-- Claim C3: every non-skipped invocation adds the pair (Vary, Origin) to
the response headers, whatever the origin and match outcome. -/
theorem cors_vary_origin_added (config : CORSConfig) (req : Request)
    (h : config.skipper req = false) :
    (HeaderVary, HeaderOrigin) ∈ (corsHandler config req).headers := by
  by_cases ho : req.header.contains HeaderOrigin = true
  · by_cases hm : matchOrigin (fillDefaults config).allowOrigins
      (req.header.get HeaderOrigin) = ""
    · rw [corsHandler_pass config req h (Or.inr hm)]
      simp
    · rw [corsHandler_matched config req h ho hm]
      simp
  · rw [corsHandler_pass config req h (Or.inl (by simpa using ho))]
    simp

/-- Witness for claim C3 at a concrete configuration and request. -/
theorem cors_vary_origin_added_witness :
    (HeaderVary, HeaderOrigin) ∈
      (corsHandler exampleConfigA simpleRequestA).headers :=
  cors_vary_origin_added exampleConfigA simpleRequestA rfl

/-- Claim C4: the matched origin is the first configured entry equal to
the wildcard or to the request origin (the empty string when none
matches), and whenever the origin is present and matched the emitted
Access-Control-Allow-Origin value is exactly that configured entry. -/
theorem cors_origin_match_spec (config : CORSConfig) (req : Request)
    (h : config.skipper req = false) :
    matchOrigin (fillDefaults config).allowOrigins
        (req.header.get HeaderOrigin) =
      (((fillDefaults config).allowOrigins.find? fun o =>
        o == "*" || o == req.header.get HeaderOrigin).getD "") ∧
    (req.header.contains HeaderOrigin = true →
      matchOrigin (fillDefaults config).allowOrigins
        (req.header.get HeaderOrigin) ≠ "" →
      (corsHandler config req).headers.lookup HeaderAccessControlAllowOrigin =
        some (matchOrigin (fillDefaults config).allowOrigins
          (req.header.get HeaderOrigin))) := by
  constructor
  · exact matchOrigin_eq_find _ _
  · intro ho hm
    rw [corsHandler_matched config req h ho hm]
    split <;> split <;>
      simp [Headers.lookup, HeaderVary, HeaderOrigin,
        HeaderAccessControlAllowOrigin, HeaderAccessControlAllowCredentials,
        HeaderAccessControlExposeHeaders]

/-- Witness for claim C4 at a concrete configuration and request. -/
theorem cors_origin_match_spec_witness :
    (corsHandler exampleConfigA simpleRequestA).headers.lookup
      HeaderAccessControlAllowOrigin = some "https://a.example" := by
  have h := (cors_origin_match_spec exampleConfigA simpleRequestA rfl).2
    (by decide) (by decide)
  exact h.trans (by decide)

/-- Claim C5: with the origin absent or unmatched a non-skipped invocation
emits only (Vary, Origin) and invokes the next handler with no status
assignment; the request method (OPTIONS included) plays no role. -/
theorem cors_unmatched_pass_through (config : CORSConfig) (req : Request)
    (h : config.skipper req = false)
    (h2 : req.header.contains HeaderOrigin = false ∨
      matchOrigin (fillDefaults config).allowOrigins
        (req.header.get HeaderOrigin) = "") :
    (corsHandler config req).headers = [(HeaderVary, HeaderOrigin)] ∧
    (corsHandler config req).nextInvoked = true ∧
    (corsHandler config req).statusCode = none := by
  rw [corsHandler_pass config req h h2]
  exact ⟨rfl, rfl, rfl⟩

/-- Witness for claim C5: an OPTIONS request with unmatched origin reaches
the next handler. -/
theorem cors_unmatched_pass_through_witness :
    (corsHandler exampleConfigA optionsRequestB).headers =
      [(HeaderVary, HeaderOrigin)] ∧
    (corsHandler exampleConfigA optionsRequestB).nextInvoked = true := by
  have h := cors_unmatched_pass_through exampleConfigA optionsRequestB rfl
    (Or.inr (by decide))
  exact ⟨h.1, h.2.1⟩

/-- Claim C6: the constructor prologue replaces an empty origin list by
the wildcard list and an empty method list by GET, POST, PUT, DELETE, and
the evaluator therefore never runs with an empty origin or method list. -/
theorem cors_config_defaults (config : CORSConfig) :
    (config.allowOrigins = [] → (fillDefaults config).allowOrigins = ["*"]) ∧
    (config.allowMethods = [] →
      (fillDefaults config).allowMethods = [GET, POST, PUT, DELETE]) ∧
    (fillDefaults config).allowOrigins ≠ [] ∧
    (fillDefaults config).allowMethods ≠ [] := by
  refine ⟨fun h => by simp [fillDefaults_allowOrigins, h],
    fun h => by simp [fillDefaults_allowMethods, h], ?_, ?_⟩
  · rw [fillDefaults_allowOrigins]
    by_cases hl : config.allowOrigins.length = 0
    · simp [hl]
    · simp only [hl, if_false]
      intro hc
      exact hl (by simp [hc])
  · rw [fillDefaults_allowMethods]
    by_cases hl : config.allowMethods.length = 0
    · simp [hl]
    · simp only [hl, if_false]
      intro hc
      exact hl (by simp [hc])

/-- Witness for claim C6 at the all-empty configuration. -/
theorem cors_config_defaults_witness :
    (fillDefaults emptyConfig).allowOrigins = ["*"] ∧
    (fillDefaults emptyConfig).allowMethods = [GET, POST, PUT, DELETE] :=
  ⟨(cors_config_defaults emptyConfig).1 rfl,
   (cors_config_defaults emptyConfig).2.1 rfl⟩

/-- Claim C7: a skipped invocation performs zero header mutations, invokes
the next handler and assigns no status, whatever the request method. -/
theorem cors_skip_no_mutation (config : CORSConfig) (req : Request)
    (h : config.skipper req = true) :
    (corsHandler config req).headers = [] ∧
    (corsHandler config req).nextInvoked = true ∧
    (corsHandler config req).statusCode = none := by
  rw [corsHandler_skip config req h]
  exact ⟨rfl, rfl, rfl⟩

/-- Witness for claim C7 at a concrete skipping configuration and an
OPTIONS request. -/
theorem cors_skip_no_mutation_witness :
    (corsHandler skipAllConfig preflightRequestA).headers = [] ∧
    (corsHandler skipAllConfig preflightRequestA).nextInvoked = true := by
  have h := cors_skip_no_mutation skipAllConfig preflightRequestA rfl
  exact ⟨h.1, h.2.1⟩

/-- Claim C8: with a max age of 600 and a matched preflight request the
handler still emits no Access-Control-Max-Age header and falls through to
next, because the emitting code of lines 137-139 lies in the unreachable
preflight block; that block, run on its own, would emit the value 600. -/
theorem cors_max_age_not_emitted :
    (corsHandler maxAgeConfig preflightRequestA).headers.lookup
      HeaderAccessControlMaxAge = none ∧
    (corsHandler maxAgeConfig preflightRequestA).nextInvoked = true ∧
    (preflightBlock maxAgeConfig preflightRequestA).headers.lookup
      HeaderAccessControlMaxAge = some "600" := by
  decide

/-- Claim C9: for a non-skipped request with present and matched origin,
the Access-Control-Allow-Credentials header is exactly "true" when the
credentials flag is set and is absent entirely when it is not. -/
theorem cors_allow_credentials_header (config : CORSConfig) (req : Request)
    (h : config.skipper req = false)
    (ho : req.header.contains HeaderOrigin = true)
    (hm : matchOrigin (fillDefaults config).allowOrigins
      (req.header.get HeaderOrigin) ≠ "") :
    (config.allowCredentials = true →
      (corsHandler config req).headers.lookup
        HeaderAccessControlAllowCredentials = some "true") ∧
    (config.allowCredentials = false →
      (corsHandler config req).headers.lookup
        HeaderAccessControlAllowCredentials = none) := by
  rw [corsHandler_matched config req h ho hm]
  constructor <;> intro hc <;>
    simp [hc, Headers.lookup, HeaderVary, HeaderOrigin,
      HeaderAccessControlAllowOrigin, HeaderAccessControlAllowCredentials,
      HeaderAccessControlExposeHeaders]

/-- Witness for claim C9 at a concrete credentialed configuration. -/
theorem cors_allow_credentials_header_witness :
    (corsHandler credentialsConfig simpleRequestA).headers.lookup
      HeaderAccessControlAllowCredentials = some "true" :=
  (cors_allow_credentials_header credentialsConfig simpleRequestA rfl
    (by decide) (by decide)).1 (by decide)

/-- Counterexample to claim C10 as stated: the origin list contains the
wildcard, the Origin header is present with empty value and the request
is not skipped, yet no Access-Control-Allow-Origin header is emitted,
because the earlier empty-string entry matches the empty origin first and
an empty match is treated as no match. -/
theorem cors_wildcard_contains_cex :
    emptyEntryConfig.allowOrigins.contains "*" = true ∧
    emptyEntryConfig.skipper emptyOriginRequest = false ∧
    emptyOriginRequest.header.contains HeaderOrigin = true ∧
    (corsHandler emptyEntryConfig emptyOriginRequest).headers.lookup
      HeaderAccessControlAllowOrigin = none := by
  decide

/-- Claim C10 amended: for a non-skipped request whose Origin header is
present with the empty-string value, under a configuration whose origin
list contains the wildcard with no empty-string entry before it, the
wildcard matches and Access-Control-Allow-Origin is set to the wildcard. -/
theorem cors_wildcard_empty_origin (config : CORSConfig) (req : Request)
    (pre rest : List String)
    (h : config.skipper req = false)
    (ho : req.header.contains HeaderOrigin = true)
    (he : req.header.get HeaderOrigin = "")
    (hsplit : config.allowOrigins = pre ++ "*" :: rest)
    (hpre : "" ∉ pre) :
    (corsHandler config req).headers.lookup HeaderAccessControlAllowOrigin =
      some "*" := by
  have hne : config.allowOrigins ≠ [] := by simp [hsplit]
  have hfo : (fillDefaults config).allowOrigins = config.allowOrigins :=
    fillDefaults_allowOrigins_of_ne_nil config hne
  have hmatch : matchOrigin (fillDefaults config).allowOrigins
      (req.header.get HeaderOrigin) = "*" := by
    rw [hfo, hsplit, he]
    exact matchOrigin_wildcard pre rest hpre
  rw [corsHandler_matched config req h ho (by simp [hmatch])]
  rw [hmatch]
  split <;> split <;>
    simp [Headers.lookup, HeaderVary, HeaderOrigin,
      HeaderAccessControlAllowOrigin, HeaderAccessControlAllowCredentials,
      HeaderAccessControlExposeHeaders]

/-- Witness for the amended claim C10 at a concrete configuration whose
wildcard sits behind one literal origin. -/
theorem cors_wildcard_empty_origin_witness :
    (corsHandler wildcardSecondConfig emptyOriginRequest).headers.lookup
      HeaderAccessControlAllowOrigin = some "*" :=
  cors_wildcard_empty_origin wildcardSecondConfig emptyOriginRequest
    ["https://x.example"] [] rfl (by decide) (by decide) rfl (by decide)

end AirCORS
